import Mathlib

/-!
Verification of the LDIMS MCP backend adapter (TypeScript repository
ldims-backend-mcp) against its natural-language specification.

The development shallowly embeds the decision logic of the repository:

* the error classifier and retry executor of the error-handler module
  (McpErrorHandler: handleError, handleGenericError, handleZodError,
  shouldRetry, getRetryDelay, executeWithRetry);
* the session router of the HTTP transport (HttpMcpServer.handleMcpRequest);
* the zod parameter schemas (SearchDocumentsSchema,
  GetDocumentFileContentSchema) and the tool-call handlers;
* the response-reshaping core of the API adapter
  (LdimsApiService.searchDocuments, LdimsApiService.getDocumentFileContent).

I/O (actual HTTP traffic, console logging, wall-clock sleep) is factored
out: operations are modelled as attempt-indexed outcome functions, time as
an explicit string or delay count, and the network as an already-parsed
envelope value.  The in-memory error statistics and error history of
McpErrorHandler are write-only diagnostics that never influence the value
returned by any modelled function and are omitted.
-/

/-- JavaScript substring containment, the semantics of
String.prototype.includes used by the classifier: case-sensitive. -/
def hasSubstr (hay needle : String) : Bool :=
  hay.toList.tails.any (fun t => needle.toList.isPrefixOf t)

/-- JavaScript string truthiness of an optional string: null/undefined and
the empty string are falsy. -/
def truthyStr : Option String → Bool
  | some s => s ≠ ""
  | none => false

/-- JavaScript a || b on two optional strings (used for
pathParam || header in the session router). -/
def jsOrStr (a b : Option String) : Option String :=
  if truthyStr a then a else b

/-- JavaScript s1 || s2 on two plain strings (empty string is falsy). -/
def jsOrPlain (a b : String) : String :=
  if a ≠ "" then a else b

/-- The closed error-code taxonomy of the service (types/mcp.ts,
enum McpErrorCode). -/
inductive McpErrorCode where
  | INVALID_PARAMS
  | MISSING_REQUIRED_PARAM
  | INVALID_PARAM_TYPE
  | INVALID_PARAM_VALUE
  | RESOURCE_NOT_FOUND
  | RESOURCE_ACCESS_DENIED
  | INVALID_RESOURCE_URI
  | TOOL_NOT_FOUND
  | TOOL_EXECUTION_FAILED
  | TOOL_TIMEOUT
  | API_CONNECTION_FAILED
  | API_TIMEOUT
  | API_AUTHENTICATION_FAILED
  | API_RATE_LIMITED
  | API_SERVER_ERROR
  | API_INVALID_RESPONSE
  | CONFIG_INVALID
  | CONFIG_MISSING
  | CONFIG_LOAD_FAILED
  | INTERNAL_ERROR
  | UNKNOWN_ERROR
  | SERVICE_UNAVAILABLE
deriving DecidableEq, BEq, Repr

/-- Error severity levels (types/mcp.ts, enum McpErrorSeverity). -/
inductive McpErrorSeverity where
  | low
  | medium
  | high
  | critical
deriving DecidableEq, BEq, Repr

/-- A JavaScript value stored inside a details / context record.  Only the
shapes the error-handler module actually stores are modelled. -/
inductive DVal where
  | jsUndefined
  | str (s : String)
  | num (n : Nat)
  | arr (xs : List DVal)
  | obj (kvs : List (String × DVal))

/-- A context record (Record<string, unknown>) as an ordered key-value
list, matching JavaScript property order. -/
def Ctx : Type := List (String × DVal)

/-- JavaScript property assignment d[k] = v: an existing key keeps its
position and is overwritten, a new key is appended. -/
def setKey (d : List (String × DVal)) (k : String) (v : DVal) :
    List (String × DVal) :=
  if d.any (fun p => p.1 = k) then
    d.map (fun p => if p.1 = k then (k, v) else p)
  else
    d ++ [(k, v)]

/-- The ClassifiedError value (types/mcp.ts, class McpError).  The
timestamp is the ISO string captured at construction; the Error cause
option is only ever written at construction and read by nothing modelled
here, so it is omitted. -/
structure McpError where
  code : McpErrorCode
  message : String
  severity : McpErrorSeverity
  timestamp : String
  traceId : Option String
  recoverable : Bool
  retryAfter : Option Nat
  userMessage : Option String
  details : Option (List (String × DVal))

/-- One zod validation issue as the handler consumes it (path segments,
human message, zod issue code). -/
structure ZodIssue where
  path : List String
  message : String
  code : String

/-- A raised JavaScript failure value as discriminated by
McpErrorHandler.handleError: an already-classified McpError, a ZodError,
a generic Error (name, message, optional stack), or any other value,
carried as its String(error) rendering. -/
inductive Thrown where
  | mcp (e : McpError)
  | zod (issues : List ZodIssue)
  | err (name message : String) (stack : Option String)
  | other (rendering : String)

/-- Error-handler configuration (error-handler module,
interface ErrorHandlerConfig). -/
structure ErrorHandlerConfig where
  enableDetailedErrors : Bool
  logStackTrace : Bool
  defaultRetryDelay : Nat
  maxRetryAttempts : Nat

/-- The configuration of the globalErrorHandler instance: detailed errors
and stack traces track NODE_ENV === "development", delay 1000, 3
attempts. -/
def globalErrorHandlerConfig (isDevelopment : Bool) : ErrorHandlerConfig :=
  ⟨isDevelopment, isDevelopment, 1000, 3⟩

/-- McpError.apiConnectionFailed static constructor: HIGH severity,
recoverable, suggested retry after 5000 ms. -/
def McpError.apiConnectionFailed (now message : String)
    (details : Option (List (String × DVal))) : McpError :=
  { code := .API_CONNECTION_FAILED
    message := message
    severity := .high
    timestamp := now
    traceId := none
    recoverable := true
    retryAfter := some 5000
    userMessage := some "服务暂时不可用，请稍后重试"
    details := details }

/-- McpError.internalError static constructor: CRITICAL severity, not
recoverable. -/
def McpError.internalError (now message : String) : McpError :=
  { code := .INTERNAL_ERROR
    message := message
    severity := .critical
    timestamp := now
    traceId := none
    recoverable := false
    retryAfter := none
    userMessage := some "系统内部错误，请联系管理员"
    details := none }

/-- McpErrorHandler.handleZodError: one INVALID_PARAMS error collecting
every issue, LOW severity, recoverable. -/
def handleZodError (now : String) (issues : List ZodIssue) : McpError :=
  { code := .INVALID_PARAMS
    message := "参数验证失败: " ++ String.intercalate ", "
      (issues.map (fun i =>
        String.intercalate "." i.path ++ ": " ++ i.message))
    severity := .low
    timestamp := now
    traceId := none
    recoverable := true
    retryAfter := none
    userMessage := some "请检查输入参数格式是否正确"
    details := some [("validationErrors", DVal.arr (issues.map (fun i =>
      DVal.obj [("path", .str (String.intercalate "." i.path)),
                ("message", .str i.message),
                ("code", .str i.code)])))] }

/-- McpErrorHandler.handleGenericError: classify a generic Error by
case-sensitive substring tests on its message, first match wins:
fetch/network, then timeout, then not found, otherwise internal. -/
def handleGenericError (cfg : ErrorHandlerConfig) (now : String)
    (name message : String) (stack : Option String) : McpError :=
  if hasSubstr message "fetch" || hasSubstr message "network" then
    McpError.apiConnectionFailed now message
      (some [("originalError", .str name),
             ("stack", if cfg.logStackTrace then
                (match stack with | some s => DVal.str s | none => .jsUndefined)
              else .jsUndefined)])
  else if hasSubstr message "timeout" then
    { code := .API_TIMEOUT
      message := message
      severity := .medium
      timestamp := now
      traceId := none
      recoverable := true
      retryAfter := some cfg.defaultRetryDelay
      userMessage := some "请求超时，请稍后重试"
      details := none }
  else if hasSubstr message "not found" then
    { code := .RESOURCE_NOT_FOUND
      message := message
      severity := .medium
      timestamp := now
      traceId := none
      recoverable := false
      retryAfter := none
      userMessage := some "请求的资源不存在"
      details := none }
  else
    McpError.internalError now message

/-- The DVal stored for an optional context value. -/
def ctxDVal : Option Ctx → DVal
  | some c => .obj c
  | none => .jsUndefined

/-- The conversion step of McpErrorHandler.handleError: discriminate the
failure into a ClassifiedError. -/
def classifyThrown (cfg : ErrorHandlerConfig) (now : String) (error : Thrown)
    (context : Option Ctx) : McpError :=
  match error with
  | .mcp e => e
  | .zod issues => handleZodError now issues
  | .err name message stack => handleGenericError cfg now name message stack
  | .other rendering =>
    { code := .UNKNOWN_ERROR
      message := "未知错误: " ++ rendering
      severity := .medium
      timestamp := now
      traceId := none
      recoverable := false
      retryAfter := none
      userMessage := none
      details := some [("originalError", .str rendering),
                       ("context", ctxDVal context)] }

/-- The add-context step of McpErrorHandler.handleError: when a context is
supplied and the classified error has a details record, set
details.context to the supplied context. -/
def addContext (context : Option Ctx) (mcpError : McpError) : McpError :=
  match context with
  | none => mcpError
  | some c =>
    match mcpError.details with
    | none => mcpError
    | some d => { mcpError with details := some (setKey d "context" (DVal.obj c)) }

/-- McpErrorHandler.handleError: convert, then add the context.
recordError and logError only update write-only diagnostics and never
change the returned error. -/
def handleError (cfg : ErrorHandlerConfig) (now : String) (error : Thrown)
    (context : Option Ctx) : McpError :=
  addContext context (classifyThrown cfg now error context)

/-- McpErrorHandler.shouldRetry: retry while the error is recoverable, the
attempt count is below the bound, and the severity is not CRITICAL. -/
def shouldRetry (cfg : ErrorHandlerConfig) (e : McpError)
    (attemptCount : Nat) : Bool :=
  e.recoverable && decide (attemptCount < cfg.maxRetryAttempts)
    && decide (e.severity ≠ .critical)

/-- McpErrorHandler.getRetryDelay: exponential backoff from the error's
suggested delay, or the configured default when absent. -/
def getRetryDelay (cfg : ErrorHandlerConfig) (e : McpError)
    (attemptCount : Nat) : Nat :=
  (e.retryAfter.getD cfg.defaultRetryDelay) * 2 ^ (attemptCount - 1)

/-- The context executeWithRetry hands to handleError on a failure at the
given attempt: the caller context extended with attempt and maxAttempts. -/
def spreadCtx (ctx : Option Ctx) (attempt maxAttempts : Nat) : Ctx :=
  setKey (setKey (ctx.getD []) "attempt" (.num attempt))
    "maxAttempts" (.num maxAttempts)

/-- Outcome of a retry run: a value, a raised classified error, or the
throw lastError! of a loop that never ran (maxRetryAttempts = 0, where
lastError is still null). -/
inductive RetryOutcome (T : Type) where
  | ok (v : T)
  | raised (e : McpError)
  | raisedNull

/-- Observable trace of one executeWithRetry run: how many times the
wrapped operation was invoked, the backoff delays slept between attempts,
and the final outcome. -/
structure RetryTrace (T : Type) where
  calls : Nat
  delays : List Nat
  outcome : RetryOutcome T

/-- The loop body of McpErrorHandler.executeWithRetry.  The operation is
modelled as a function from the attempt number to that invocation's
result; now gives the classification instant of each attempt; fuel is the
number of loop iterations left, starting at maxRetryAttempts. -/
def retryGo {T : Type} (cfg : ErrorHandlerConfig) (now : Nat → String)
    (ctx : Option Ctx) (op : Nat → Except Thrown T) :
    Nat → Nat → Option McpError → RetryTrace T
  | 0, _, none => ⟨0, [], .raisedNull⟩
  | 0, _, some e => ⟨0, [], .raised e⟩
  | fuel + 1, attempt, _ =>
    match op attempt with
    | .ok v => ⟨1, [], .ok v⟩
    | .error e =>
      let cl := handleError cfg (now attempt) e
        (some (spreadCtx ctx attempt cfg.maxRetryAttempts))
      if shouldRetry cfg cl attempt then
        let ds := if attempt < cfg.maxRetryAttempts then
            [getRetryDelay cfg cl attempt] else []
        let rest := retryGo cfg now ctx op fuel (attempt + 1) (some cl)
        ⟨rest.calls + 1, ds ++ rest.delays, rest.outcome⟩
      else
        ⟨1, [], .raised cl⟩

/-- McpErrorHandler.executeWithRetry: up to maxRetryAttempts invocations
starting at attempt 1 with no previous error. -/
def executeWithRetry {T : Type} (cfg : ErrorHandlerConfig)
    (now : Nat → String) (ctx : Option Ctx)
    (op : Nat → Except Thrown T) : RetryTrace T :=
  retryGo cfg now ctx op cfg.maxRetryAttempts 1 none

/-- An inbound request at the unified /mcp endpoint as
HttpMcpServer.handleMcpRequest inspects it: HTTP method, the optional
/mcp/:sessionId path parameter, the optional Mcp-Session-Id header, body
truthiness and the body's method field. -/
structure McpHttpRequest where
  httpMethod : String
  pathSessionId : Option String
  headerSessionId : Option String
  bodyPresent : Bool
  bodyMethod : Option String

/-- What the router does with a request: create a session (initialize
path), delegate to the stored transport of a session, or reject with an
error code and HTTP status without touching any transport. -/
inductive McpRouteOutcome where
  | initializeNewSession
  | dispatchTo (sessionId : String)
  | rejected (code : String) (status : Nat)
deriving DecidableEq, Repr

/-- The isInitialize test of handleMcpRequest: POST, truthy body, and
body.method === "initialize". -/
def isInitialize (r : McpHttpRequest) : Bool :=
  decide (r.httpMethod = "POST") && r.bodyPresent
    && decide (r.bodyMethod = some "initialize")

/-- HttpMcpServer.handleMcpRequest over the session table (the keys of the
transports map): initialize requests go to a fresh transport; otherwise
the session id (path parameter, else header) is required and must be in
the table. -/
def handleMcpRequest (r : McpHttpRequest) (transports : List String) :
    McpRouteOutcome :=
  let sessionId := jsOrStr r.pathSessionId r.headerSessionId
  if isInitialize r then
    .initializeNewSession
  else if truthyStr sessionId = false then
    .rejected "MISSING_SESSION_ID" 400
  else if transports.contains (sessionId.getD "") then
    .dispatchTo (sessionId.getD "")
  else
    .rejected "UNKNOWN_SESSION" 404

/-- Arguments of a searchDocuments tool call before validation, assuming
JavaScript-level types are as declared (the zod type checks are not the
subject of any claim; the length and range checks are). -/
structure SearchFilterArgs where
  dateFrom : Option String
  dateTo : Option String
  documentType : Option String
  submitter : Option String
  searchMode : Option String
deriving Repr, DecidableEq

/-- Raw searchDocuments arguments. -/
structure SearchToolArgs where
  query : Option String
  maxResults : Option Int
  filters : Option SearchFilterArgs

/-- searchDocuments arguments after SearchDocumentsSchema.parse: required
query, maxResults defaulted to 5, searchMode defaulted to semantic. -/
structure ValidatedSearch where
  query : String
  maxResults : Int
  filters : Option SearchFilterArgs
deriving Repr, DecidableEq

/-- The issues SearchDocumentsSchema.parse raises on the given arguments:
query required with min length 1 (custom message 搜索查询不能为空),
maxResults an integer in 1..50, searchMode one of exact/semantic.  An
empty list means the parse succeeds. -/
def searchIssues (a : SearchToolArgs) : List ZodIssue :=
  (match a.query with
    | none => [⟨["query"], "Required", "invalid_type"⟩]
    | some q =>
      if q.length < 1 then [⟨["query"], "搜索查询不能为空", "too_small"⟩]
      else [])
  ++ (match a.maxResults with
    | none => []
    | some m =>
      (if m < 1 then
        [⟨["maxResults"], "Number must be greater than or equal to 1",
          "too_small"⟩] else [])
      ++ (if m > 50 then
        [⟨["maxResults"], "Number must be less than or equal to 50",
          "too_big"⟩] else []))
  ++ (match a.filters with
    | none => []
    | some f =>
      match f.searchMode with
      | none => []
      | some m =>
        if m = "exact" ∨ m = "semantic" then []
        else [⟨["filters", "searchMode"], "Invalid enum value",
          "invalid_enum_value"⟩])

/-- SearchDocumentsSchema.parse: throws a ZodError carrying every issue,
or yields the validated arguments with defaults applied. -/
def parseSearchArgs (a : SearchToolArgs) :
    Except (List ZodIssue) ValidatedSearch :=
  match searchIssues a with
  | [] => .ok
      { query := a.query.getD ""
        maxResults := a.maxResults.getD 5
        filters := a.filters.map (fun f =>
          { f with searchMode := some (f.searchMode.getD "semantic") }) }
  | issues => .error issues

/-- The searchDocuments case of the CallToolRequestSchema handler, up to
the backend boundary: parse first; a ZodError propagates to the outer
catch, which classifies it via handleMcpError and returns an isError tool
result, and only a successful parse reaches the API call. -/
inductive SearchToolStep where
  | callBackend (v : ValidatedSearch)
  | errorResult (e : McpError)

/-- First step of the searchDocuments tool handler. -/
def searchToolStep (cfg : ErrorHandlerConfig) (now : String)
    (a : SearchToolArgs) : SearchToolStep :=
  match parseSearchArgs a with
  | .ok v => .callBackend v
  | .error issues => .errorResult (handleError cfg now (.zod issues) none)

/-- The backend calls the searchDocuments tool handler performs for the
given arguments (the observable request trace up to the adapter). -/
def searchToolBackendCalls (cfg : ErrorHandlerConfig) (now : String)
    (a : SearchToolArgs) : List ValidatedSearch :=
  match searchToolStep cfg now a with
  | .callBackend v => [v]
  | .errorResult _ => []

/-- A JSON id that the backend sends either as a string or as a number
(z.union([z.string(), z.number()])). -/
inductive JsonId where
  | str (s : String)
  | num (n : Int)
deriving DecidableEq, Repr

/-- The String(id) rendering used when reshaping backend records. -/
def renderId : JsonId → String
  | .str s => s
  | .num n => toString n

/-- The data object of the file-content envelope
(LdimsDocumentFileResponse in services/ldims-api.ts, every field
optional). -/
structure LdimsFileData where
  id : Option JsonId
  fileName : Option String
  extractedContent : Option String
  fileSize : Option Nat
  fileType : Option String
  createdAt : Option String
  updatedAt : Option String
  processingStatus : Option String
deriving Repr

/-- The error object of a backend envelope. -/
structure LdimsApiErrInfo where
  code : String
  message : String
deriving Repr

/-- The parsed file-content envelope. -/
structure LdimsFileEnvelope where
  success : Bool
  data : Option LdimsFileData
  message : Option String
  error : Option LdimsApiErrInfo
deriving Repr

/-- A thrown LdimsApiError, by code and message. -/
structure LdimsApiError where
  code : String
  message : String
deriving DecidableEq, Repr

/-- The metadata block of a DocumentFileContentResponse. -/
structure FileMetadata where
  filename : String
  size : Nat
  created_at : String
  mime_type : String
  updated_at : Option String
deriving DecidableEq, Repr

/-- The tool-facing file-content result (types/mcp.ts,
DocumentFileContentResponse): the metadata block is an optional field. -/
structure DocumentFileContentResponse where
  file_id : String
  content : String
  format : String
  metadata : Option FileMetadata
deriving DecidableEq, Repr

/-- The envelope-to-result core of LdimsApiService.getDocumentFileContent,
after the HTTP layer delivered a 2xx envelope: reject unsuccessful or
data-less envelopes, otherwise build the response, attaching the metadata
block exactly when includeMetadata is set; now stands for the
new Date().toISOString() default of created_at. -/
def buildFileContentResult (fileId : String) (includeMetadata : Bool)
    (format : String) (env : LdimsFileEnvelope) (now : String) :
    Except LdimsApiError DocumentFileContentResponse :=
  if env.success = false then
    .error ⟨(env.error.map (fun e => e.code)).getD "UNKNOWN_ERROR",
      (env.error.map (fun e => e.message)).getD "Unknown API error"⟩
  else
    match env.data with
    | none => .error ⟨"NO_DATA", "API response missing data field"⟩
    | some d => .ok
      { file_id := (d.id.map renderId).getD fileId
        content := d.extractedContent.getD ""
        format := format
        metadata :=
          if includeMetadata then
            some { filename := d.fileName.getD "未知文件"
                   size := d.fileSize.getD 0
                   created_at := d.createdAt.getD now
                   mime_type := d.fileType.getD "text/plain"
                   updated_at :=
                     match d.updatedAt with
                     | some s => if s ≠ "" then some s else none
                     | none => none }
          else none }

/-- get_document_file_content tool arguments before validation. -/
structure GetDocToolArgs where
  file_id : Option String
  include_metadata : Option Bool
  format : Option String
deriving Repr

/-- get_document_file_content arguments after
GetDocumentFileContentSchema.parse, defaults applied. -/
structure ValidatedGetDoc where
  file_id : String
  include_metadata : Bool
  format : String
deriving DecidableEq, Repr

/-- Issues GetDocumentFileContentSchema.parse raises: file_id required
with min length 1, format in text/base64. -/
def getDocIssues (a : GetDocToolArgs) : List ZodIssue :=
  (match a.file_id with
    | none => [⟨["file_id"], "Required", "invalid_type"⟩]
    | some f =>
      if f.length < 1 then [⟨["file_id"], "文件ID不能为空", "too_small"⟩]
      else [])
  ++ (match a.format with
    | none => []
    | some f =>
      if f = "text" ∨ f = "base64" then []
      else [⟨["format"], "Invalid enum value", "invalid_enum_value"⟩])

/-- GetDocumentFileContentSchema.parse with defaults
include_metadata = false and format = text. -/
def parseGetDocArgs (a : GetDocToolArgs) :
    Except (List ZodIssue) ValidatedGetDoc :=
  match getDocIssues a with
  | [] => .ok
      { file_id := a.file_id.getD ""
        include_metadata := a.include_metadata.getD false
        format := a.format.getD "text" }
  | issues => .error issues

/-- The arguments with which the get_document_file_content case of the
stdio CallToolRequestSchema handler invokes
ldimsApi.getDocumentFileContent: only validatedArgs.file_id is passed, so
the TypeScript parameter defaults includeMetadata = false and
format = "text" always apply, whatever the validated arguments say. -/
def getDocToolServiceArgs (v : ValidatedGetDoc) : String × Bool × String :=
  (v.file_id, false, "text")

/-- A file entry inside a search-envelope record (LdimsSearchResponse). -/
structure LdimsSearchFile where
  id : Int
  fileName : String
  extractedContent : Option String
  fileType : Option String
  processingStatus : Option String
deriving Repr

/-- One record of the search envelope (LdimsSearchResponse data.list);
nullish fields are Options. -/
structure LdimsSearchRecord where
  id : JsonId
  docName : Option String
  extractedContent : Option String
  remarks : Option String
  createdAt : Option String
  submitter : Option String
  docTypeName : Option String
  sourceDepartmentName : Option String
  departmentName : Option String
  handoverDate : Option String
  fileCount : Option Int
  files : Option (List LdimsSearchFile)
deriving Repr

/-- The data object of the search envelope. -/
structure LdimsSearchData where
  list : List LdimsSearchRecord
  total : Int
  page : Option Int
  pageSize : Option Int
deriving Repr

/-- The full search envelope: code, message, nullish data. -/
structure LdimsSearchEnvelope where
  code : Int
  message : String
  data : Option LdimsSearchData
deriving Repr

/-- The file-details entry recorded for each file that contributed
content. -/
structure FileDetail where
  fileId : String
  fileName : String
  contentLength : Nat
deriving DecidableEq, Repr

/-- The metadata block of one reshaped search result, including the
file-structure fields the adapter adds. -/
structure SearchResultMetadata where
  createdAt : String
  submitter : String
  documentType : String
  departmentName : String
  handoverDate : Option String
  fileCount : Nat
  fileDetails : List FileDetail
  totalContentLength : Nat
  hasMultipleFiles : Bool
deriving DecidableEq, Repr

/-- One reshaped search result (SearchDocumentsResponse.results entry). -/
structure SearchResult where
  documentId : String
  documentName : String
  relevanceScore : ℚ
  matchedContext : String
  metadata : SearchResultMetadata
deriving DecidableEq, Repr

/-- Template-literal rendering of a nullish string field; a JSON-null
field renders as null (an absent field would render undefined — the
difference is immaterial to every claim, and this branch is only the
last-resort basic-info text). -/
def renderNullish : Option String → String
  | some s => s
  | none => "null"

/-- One iteration of the files.forEach loop of searchDocuments: a file
whose extractedContent is truthy and trims to a non-empty string
contributes a content part (header plus trimmed content) and a
file-details entry. -/
def fileSection (idx : Nat) (f : LdimsSearchFile) :
    Option (String × FileDetail) :=
  match f.extractedContent with
  | some c =>
    if c ≠ "" ∧ c.trim ≠ "" then
      some ("=== 文件 " ++ toString (idx + 1) ++ ": " ++ f.fileName
              ++ " ===\n" ++ c.trim,
            ⟨toString f.id,
             jsOrPlain f.fileName ("文件" ++ toString (idx + 1)),
             c.trim.length⟩)
    else none
  | none => none

/-- The separator joining content parts of different files. -/
def searchSep : String :=
  "\n\n" ++ String.mk (List.replicate 50 '=') ++ "\n\n"

/-- The contributing file sections of a record, in file order. -/
def fileSections (r : LdimsSearchRecord) : List (String × FileDetail) :=
  (r.files.getD []).enum.filterMap (fun p => fileSection p.1 p.2)

/-- The fullContent text built for a record: joined file contents, else
the remarks note, else the basic-info fallback. -/
def fullContentOf (r : LdimsSearchRecord) : String :=
  let fs := r.files.getD []
  let parts := (fileSections r).map Prod.fst
  let c1 : String :=
    if fs.length > 0 ∧ parts.length > 0 then
      String.intercalate searchSep parts
    else ""
  let c2 : String :=
    if c1 = "" ∧ truthyStr r.remarks then
      "[文档说明]\n" ++ r.remarks.getD ""
    else c1
  if c2 = "" then
    "[文档信息]\n文档名称: " ++ renderNullish r.docName
      ++ "\n文档类型: " ++ renderNullish r.docTypeName
      ++ "\n提交人: " ++ renderNullish r.submitter
      ++ "\n创建时间: " ++ renderNullish r.createdAt
  else c2

/-- The record-to-result mapping of LdimsApiService.searchDocuments: every
record becomes one SearchResult with the constant relevanceScore 0.8; now
stands for the new Date().toISOString() default of createdAt. -/
def toSearchResult (now : String) (r : LdimsSearchRecord) : SearchResult :=
  let fullContent := fullContentOf r
  { documentId := renderId r.id
    documentName := r.docName.getD "未知文档"
    relevanceScore := 0.8
    matchedContext := fullContent
    metadata :=
      { createdAt := r.createdAt.getD now
        submitter := r.submitter.getD "未知"
        documentType := r.docTypeName.getD "未知类型"
        departmentName :=
          (r.sourceDepartmentName.getD (r.departmentName.getD "未知部门"))
        handoverDate := r.handoverDate
        fileCount := (r.files.getD []).length
        fileDetails := (fileSections r).map Prod.snd
        totalContentLength := fullContent.length
        hasMultipleFiles := decide ((r.files.getD []).length > 1) } }

/-- The results list searchDocuments derives from the parsed envelope
data, in the backend's record order. -/
def searchDocumentsResults (data : LdimsSearchData) (now : String) :
    List SearchResult :=
  data.list.map (toSearchResult now)

/-- The envelope-level handling of searchDocuments: a non-200 envelope
code throws SEARCH_FAILED, missing data throws NO_DATA, otherwise the
reshaped results plus totalMatches. -/
def searchDocumentsCore (env : LdimsSearchEnvelope) (now : String) :
    Except LdimsApiError (List SearchResult × Int) :=
  if env.code ≠ 200 then .error ⟨"SEARCH_FAILED", env.message⟩
  else
    match env.data with
    | none => .error ⟨"NO_DATA", "搜索响应缺少数据"⟩
    | some d => .ok (searchDocumentsResults d now, d.total)

/-- Modelled from the spec: §4.4 describes a per-document
relevance-ranking key as "the maximum snippet score associated with that
document (ties broken by earliest match position)".  No snippet score and
no match position exist in the source search envelope (LdimsSearchRecord)
or anywhere in the adapter, so the spec's association of scored snippets
to a document is modelled here from its words. -/
structure SpecSnippet where
  score : ℚ
  matchPos : Nat
deriving DecidableEq, Repr

/-- Modelled from the spec: the maximum snippet score associated with a
document, over its snippet list. -/
def specBestSnippetScore (snips : List SpecSnippet) : ℚ :=
  (snips.map (fun s => s.score)).foldr max 0

/-- A concrete error-handler configuration used by concrete evaluations:
detailed errors and stack traces on, default delay 1000 ms, 3 attempts
(the defaults of the module). -/
def cfgDemo : ErrorHandlerConfig := ⟨true, true, 1000, 3⟩

/-- An already-classified error with an (empty) details record, input of
the pass-through counterexample. -/
def e0C6 : McpError :=
  { code := .API_TIMEOUT
    message := "m"
    severity := .medium
    timestamp := "t0"
    traceId := none
    recoverable := true
    retryAfter := some 1000
    userMessage := none
    details := some [] }

/-- A caller context for the pass-through counterexample. -/
def c0C6 : Ctx := [("a", DVal.str "1")]

/-- A non-initialize POST request carrying no session id anywhere. -/
def rMissing : McpHttpRequest := ⟨"POST", none, none, true, some "tools/list"⟩

/-- A non-initialize POST request carrying an unknown header session id. -/
def rUnknown : McpHttpRequest := ⟨"POST", none, some "dead", true, some "tools/list"⟩

/-- A GET request whose body says initialize. -/
def rGetInit : McpHttpRequest := ⟨"GET", none, none, true, some "initialize"⟩

/-- A successful file-content envelope with full metadata fields. -/
def envC8 : LdimsFileEnvelope :=
  { success := true
    data := some
      { id := some (.num 42)
        fileName := some "report.pdf"
        extractedContent := some "hello"
        fileSize := some 10
        fileType := some "application/pdf"
        createdAt := some "2024-01-01"
        updatedAt := none
        processingStatus := none }
    message := none
    error := none }

/-- First record of the two-record search envelope. -/
def recC7a : LdimsSearchRecord :=
  { id := .num 1
    docName := some "文档A"
    extractedContent := none
    remarks := some "说明A"
    createdAt := some "2024-01-01"
    submitter := some "甲"
    docTypeName := some "PDF"
    sourceDepartmentName := none
    departmentName := none
    handoverDate := none
    fileCount := none
    files := none }

/-- Second record of the two-record search envelope. -/
def recC7b : LdimsSearchRecord :=
  { id := .num 2
    docName := some "文档B"
    extractedContent := none
    remarks := some "说明B"
    createdAt := some "2024-01-02"
    submitter := some "乙"
    docTypeName := some "Word"
    sourceDepartmentName := none
    departmentName := none
    handoverDate := none
    fileCount := none
    files := none }

/-- Parsed data of a 200 search envelope containing 2 records. -/
def dataC7 : LdimsSearchData := ⟨[recC7a, recC7b], 2, none, none⟩

/-- Modelled from the spec: the scored snippets associated with the first
document (no such scores exist in the source). -/
def snipsC7a : List SpecSnippet := [⟨3/10, 5⟩]

/-- Modelled from the spec: the scored snippets associated with the second
document. -/
def snipsC7b : List SpecSnippet := [⟨9/10, 2⟩]

/-- A concrete operation that fails on every attempt with a timeout-worded
generic Error (classified API_TIMEOUT: recoverable, medium severity). -/
def opTimeout : Nat → Except Thrown Nat :=
  fun _ => .error (.err "Error" "request timeout" none)

/-- A concrete operation that fails on every attempt with an unclassified
message (classified INTERNAL_ERROR: critical, not recoverable). -/
def opBoom : Nat → Except Thrown Nat :=
  fun _ => .error (.err "Error" "boom" none)

/-- A constant classification instant. -/
def nowT : Nat → String := fun _ => "T"

/-- C1 counterexample: the classifier's substring test is case-sensitive
and ranks fetch/network first, so the message "Timeout" is classified
INTERNAL_ERROR and "network timeout" is classified API_CONNECTION_FAILED,
although both contain "timeout" case-insensitively — refuting the claim
that every such failure yields API_TIMEOUT. -/
theorem classify_timeout_claim_counterexample :
    (handleError cfgDemo "T" (.err "Error" "Timeout" none) none).code
        = McpErrorCode.INTERNAL_ERROR
    ∧ (handleError cfgDemo "T" (.err "Error" "Timeout" none) none).code
        ≠ McpErrorCode.API_TIMEOUT
    ∧ (handleError cfgDemo "T" (.err "Error" "network timeout" none) none).code
        = McpErrorCode.API_CONNECTION_FAILED
    ∧ (handleError cfgDemo "T" (.err "Error" "network timeout" none) none).code
        ≠ McpErrorCode.API_TIMEOUT := by
  decide

/-- C1 (amended): for every generic Error failure whose message contains
the lowercase substring "timeout" and contains neither "fetch" nor
"network", classification yields API_TIMEOUT, severity medium,
recoverable = true, with the suggested retry delay equal to the
configured default. -/
theorem classify_timeout_amended (cfg : ErrorHandlerConfig)
    (now name msg : String) (stack : Option String) (ctx : Option Ctx)
    (htm : hasSubstr msg "timeout" = true)
    (hf : hasSubstr msg "fetch" = false)
    (hn : hasSubstr msg "network" = false) :
    (handleError cfg now (.err name msg stack) ctx).code
        = McpErrorCode.API_TIMEOUT
    ∧ (handleError cfg now (.err name msg stack) ctx).severity
        = McpErrorSeverity.medium
    ∧ (handleError cfg now (.err name msg stack) ctx).recoverable = true
    ∧ (handleError cfg now (.err name msg stack) ctx).retryAfter
        = some cfg.defaultRetryDelay := by
  cases ctx <;> simp [handleError, classifyThrown, addContext, handleGenericError, hf, hn, htm]

/-- C1 witness: the amended classification at the concrete message
"request timeout". -/
theorem classify_timeout_amended_witness :
    (handleError cfgDemo "T" (.err "Error" "request timeout" none) none).code
        = McpErrorCode.API_TIMEOUT
    ∧ (handleError cfgDemo "T" (.err "Error" "request timeout" none) none).severity
        = McpErrorSeverity.medium
    ∧ (handleError cfgDemo "T" (.err "Error" "request timeout" none) none).recoverable
        = true
    ∧ (handleError cfgDemo "T" (.err "Error" "request timeout" none) none).retryAfter
        = some cfgDemo.defaultRetryDelay :=
  classify_timeout_amended cfgDemo "T" "Error" "request timeout" none none
    (by decide) (by decide) (by decide)

/-- C6 counterexample: classifying an already-classified error that has a
details record, with a context supplied, does not return the value with
all fields unchanged — the details record gains a context entry. -/
theorem classify_passthrough_counterexample :
    handleError cfgDemo "t1" (.mcp e0C6) (some c0C6) ≠ e0C6 := by
  intro h
  exact absurd
    (congrArg (fun x => (McpError.details x).map (fun d => d.map Prod.fst)) h)
    (by decide)

/-- C6 (amended): classifying an already-classified error passes the value
through with code, message, severity, timestamp, traceId, recoverable,
retryAfter and userMessage unchanged; the value is entirely unchanged when
no context is supplied or the error carries no details record, and when a
context is supplied and a details record exists, the only change is that
the details record's context key is set to the supplied context. -/
theorem classify_passthrough_amended (cfg : ErrorHandlerConfig)
    (now : String) (e : McpError) (ctx : Option Ctx) :
    (handleError cfg now (.mcp e) ctx).code = e.code
    ∧ (handleError cfg now (.mcp e) ctx).message = e.message
    ∧ (handleError cfg now (.mcp e) ctx).severity = e.severity
    ∧ (handleError cfg now (.mcp e) ctx).timestamp = e.timestamp
    ∧ (handleError cfg now (.mcp e) ctx).traceId = e.traceId
    ∧ (handleError cfg now (.mcp e) ctx).recoverable = e.recoverable
    ∧ (handleError cfg now (.mcp e) ctx).retryAfter = e.retryAfter
    ∧ (handleError cfg now (.mcp e) ctx).userMessage = e.userMessage
    ∧ (ctx = none → handleError cfg now (.mcp e) ctx = e)
    ∧ (e.details = none → handleError cfg now (.mcp e) ctx = e)
    ∧ (∀ c d, ctx = some c → e.details = some d →
        handleError cfg now (.mcp e) ctx
          = { e with details := some (setKey d "context" (DVal.obj c)) }) := by
  cases ctx with
  | none => simp [handleError, classifyThrown, addContext]
  | some c =>
    cases hd : e.details with
    | none => simp [handleError, classifyThrown, addContext, hd]
    | some d => simp [handleError, classifyThrown, addContext, hd]

/-- C6 witness: the amended pass-through at the concrete error e0C6 and
context c0C6, whose details become the context-extended record. -/
theorem classify_passthrough_amended_witness :
    handleError cfgDemo "t1" (.mcp e0C6) (some c0C6)
      = { e0C6 with details := some (setKey [] "context" (DVal.obj c0C6)) } :=
  (classify_passthrough_amended cfgDemo "t1" e0C6 (some c0C6)).2.2.2.2.2.2.2.2.2.2
    c0C6 [] rfl rfl

/-- C5: a non-initialize request with no session id in either the path
parameter or the Mcp-Session-Id header is rejected with MISSING_SESSION_ID
and HTTP 400, and one whose effective session id is absent from the
session table is rejected with UNKNOWN_SESSION and HTTP 404; a rejected
outcome reaches no transport (it is neither initializeNewSession nor
dispatchTo). -/
theorem router_rejects_missing_and_unknown (r : McpHttpRequest)
    (transports : List String) (hni : isInitialize r = false) :
    (r.pathSessionId = none → r.headerSessionId = none →
      handleMcpRequest r transports
        = McpRouteOutcome.rejected "MISSING_SESSION_ID" 400)
    ∧ (∀ s, jsOrStr r.pathSessionId r.headerSessionId = some s → s ≠ "" →
        transports.contains s = false →
        handleMcpRequest r transports
          = McpRouteOutcome.rejected "UNKNOWN_SESSION" 404) := by
  constructor
  · intro hp hh
    simp [handleMcpRequest, hni, hp, hh, jsOrStr, truthyStr]
  · intro s hs hne hc
    have hc2 : s ∉ transports := by simpa using hc
    simp [handleMcpRequest, hni, hs, truthyStr, hne, hc2]

/-- C5 witness: the two rejections at concrete requests — no session id
anywhere, and a header session id absent from the table. -/
theorem router_rejects_witness :
    handleMcpRequest rMissing []
        = McpRouteOutcome.rejected "MISSING_SESSION_ID" 400
    ∧ handleMcpRequest rUnknown ["live"]
        = McpRouteOutcome.rejected "UNKNOWN_SESSION" 404 :=
  ⟨(router_rejects_missing_and_unknown rMissing [] (by decide)).1 rfl rfl,
   (router_rejects_missing_and_unknown rUnknown ["live"] (by decide)).2
     "dead" rfl (by decide) (by decide)⟩

/-- Helper: the router creates a new session exactly when the
isInitialize test passes. -/
theorem route_eq_init_iff (r : McpHttpRequest) (transports : List String) :
    handleMcpRequest r transports = McpRouteOutcome.initializeNewSession ↔
      isInitialize r = true := by
  unfold handleMcpRequest
  by_cases h : isInitialize r
  · simp [h]
  · have h2 : isInitialize r = false := by simpa using h
    simp only [h2, Bool.false_eq_true, if_false]
    constructor
    · intro hx
      exfalso
      revert hx
      split
      · simp
      · split <;> simp
    · intro hx
      exact hx.elim

/-- C10: the router creates a new session exactly when the HTTP method is
POST, the body is present, and the body's method field is "initialize"; a
request whose body says initialize but arrives with another HTTP method is
handled as an ordinary request, so with no session id it is rejected with
MISSING_SESSION_ID. -/
theorem initialize_requires_post (r : McpHttpRequest)
    (transports : List String) :
    (handleMcpRequest r transports = McpRouteOutcome.initializeNewSession ↔
      (r.httpMethod = "POST" ∧ r.bodyPresent = true
        ∧ r.bodyMethod = some "initialize"))
    ∧ (r.httpMethod ≠ "POST" → r.bodyMethod = some "initialize" →
        r.pathSessionId = none → r.headerSessionId = none →
        handleMcpRequest r transports
          = McpRouteOutcome.rejected "MISSING_SESSION_ID" 400) := by
  constructor
  · rw [route_eq_init_iff]
    simp [isInitialize, Bool.and_eq_true, decide_eq_true_eq, and_assoc]
  · intro hm hb hp hh
    have hinit : isInitialize r = false := by simp [isInitialize, hm]
    simp [handleMcpRequest, hinit, hp, hh, jsOrStr, truthyStr]

/-- C10 witness: a GET request whose body says initialize and that carries
no session id is rejected with MISSING_SESSION_ID. -/
theorem initialize_requires_post_witness :
    handleMcpRequest rGetInit []
      = McpRouteOutcome.rejected "MISSING_SESSION_ID" 400 :=
  (initialize_requires_post rGetInit []).2 (by decide) rfl rfl rfl

/-- C9: a searchDocuments tool invocation whose arguments fail
SearchDocumentsSchema validation performs no backend call, and the two
concrete argument sets of the claim — an empty query, and maxResults 51 —
both fail validation. -/
theorem search_validation_before_backend :
    (∀ (cfg : ErrorHandlerConfig) (now : String) (a : SearchToolArgs)
        (issues : List ZodIssue),
      parseSearchArgs a = .error issues →
      searchToolBackendCalls cfg now a = [])
    ∧ (∃ issues, parseSearchArgs ⟨some "", some 5, none⟩ = .error issues)
    ∧ (∃ issues, parseSearchArgs ⟨some "x", some 51, none⟩ = .error issues) := by
  refine ⟨?_, ⟨_, rfl⟩, ⟨_, rfl⟩⟩
  intro cfg now a issues h
  simp [searchToolBackendCalls, searchToolStep, h]

/-- C9 witness: the empty-query invocation performs no backend call. -/
theorem search_validation_witness :
    searchToolBackendCalls cfgDemo "T" ⟨some "", some 5, none⟩ = [] :=
  search_validation_before_backend.1 cfgDemo "T" ⟨some "", some 5, none⟩
    [⟨["query"], "搜索查询不能为空", "too_small"⟩] rfl

/-- C8 (code bug): the get_document_file_content tool handler of the
stdio server validates include_metadata but then invokes the service with
only the file id, so the TypeScript defaults apply and includeMetadata is
false; on a successful envelope the tool result therefore carries no
metadata block even though the caller passed include_metadata = true —
while the service itself, invoked with includeMetadata = true on the same
envelope, does attach the metadata block, which is what the claim (and
src/index.ts, which forwards the parameter) describes. -/
theorem getDoc_metadata_dropped :
    parseGetDocArgs ⟨some "42", some true, none⟩
        = .ok ⟨"42", true, "text"⟩
    ∧ getDocToolServiceArgs ⟨"42", true, "text"⟩ = ("42", false, "text")
    ∧ buildFileContentResult "42" false "text" envC8 "T"
        = .ok ⟨"42", "hello", "text", none⟩
    ∧ buildFileContentResult "42" true "text" envC8 "T"
        = .ok ⟨"42", "hello", "text",
            some ⟨"report.pdf", 10, "2024-01-01", "application/pdf", none⟩⟩ := by
  refine ⟨rfl, rfl, rfl, rfl⟩

/-- C7 counterexample: on a 200 envelope with two records the adapter
returns both entries with the constant relevanceScore 0.8 in backend
order; under the spec-modelled association of scored snippets to the two
documents (best scores 3/10 and 9/10), the returned relevance-ranking keys
are not the per-document maximum snippet scores, refuting the claimed
ranking. -/
theorem search_ranking_counterexample :
    ((searchDocumentsResults dataC7 "T").map (fun r => r.relevanceScore)
        = [0.8, 0.8])
    ∧ specBestSnippetScore snipsC7a = 3/10
    ∧ specBestSnippetScore snipsC7b = 9/10
    ∧ ((searchDocumentsResults dataC7 "T").map (fun r => r.relevanceScore)
        ≠ [specBestSnippetScore snipsC7a, specBestSnippetScore snipsC7b]) := by
  refine ⟨rfl, ?_, ?_, ?_⟩ <;>
    norm_num [specBestSnippetScore, snipsC7a, snipsC7b,
      searchDocumentsResults, dataC7, toSearchResult, recC7a, recC7b]

/-- C7 (amended): for every parsed search envelope the adapter returns
exactly one SearchResult per backend record, in the backend's order (the
i-th result is the reshaping of the i-th record), and every returned
entry carries the constant relevance-ranking key 0.8 — no snippet-score
key is computed and no reordering happens. -/
theorem search_results_shape_amended (data : LdimsSearchData)
    (now : String) :
    (searchDocumentsResults data now).length = data.list.length
    ∧ (∀ i, (searchDocumentsResults data now).get? i
        = (data.list.get? i).map (toSearchResult now))
    ∧ (∀ res ∈ searchDocumentsResults data now,
        res.relevanceScore = 0.8) := by
  refine ⟨by simp [searchDocumentsResults], fun i => ?_, fun res hres => ?_⟩
  · simp [searchDocumentsResults]
  · simp only [searchDocumentsResults, List.mem_map] at hres
    obtain ⟨r, _, rfl⟩ := hres
    rfl

/-- C7 witness: the two-record envelope yields exactly 2 entries and the
first entry carries relevance-ranking key 0.8. -/
theorem search_results_shape_witness :
    (searchDocumentsResults dataC7 "T").length = dataC7.list.length
    ∧ (toSearchResult "T" recC7a).relevanceScore = 0.8 :=
  ⟨(search_results_shape_amended dataC7 "T").1,
   (search_results_shape_amended dataC7 "T").2.2 (toSearchResult "T" recC7a)
     (by simp [searchDocumentsResults, dataC7])⟩

/-- One unfolding of the retry loop when at least one iteration is left. -/
theorem retryGo_pos {T : Type} (cfg : ErrorHandlerConfig)
    (now : Nat → String) (ctx : Option Ctx) (op : Nat → Except Thrown T)
    (fuel attempt : Nat) (last : Option McpError) (h : 0 < fuel) :
    retryGo cfg now ctx op fuel attempt last =
      match op attempt with
      | .ok v => ⟨1, [], .ok v⟩
      | .error e =>
        let cl := handleError cfg (now attempt) e
          (some (spreadCtx ctx attempt cfg.maxRetryAttempts))
        if shouldRetry cfg cl attempt then
          ⟨(retryGo cfg now ctx op (fuel - 1) (attempt + 1) (some cl)).calls + 1,
           (if attempt < cfg.maxRetryAttempts then
              [getRetryDelay cfg cl attempt] else [])
             ++ (retryGo cfg now ctx op (fuel - 1) (attempt + 1) (some cl)).delays,
           (retryGo cfg now ctx op (fuel - 1) (attempt + 1) (some cl)).outcome⟩
        else ⟨1, [], .raised cl⟩ := by
  cases fuel with
  | zero => omega
  | succ m => rfl

/-- C2: when the first invocation fails and its classification is
CRITICAL, executeWithRetry invokes the operation exactly once and raises
that classification, for every configuration with at least one attempt,
whatever the error's recoverable flag. -/
theorem critical_single_attempt {T : Type} (cfg : ErrorHandlerConfig)
    (now : Nat → String) (ctx : Option Ctx) (op : Nat → Except Thrown T)
    (e : Thrown) (hmax : 1 ≤ cfg.maxRetryAttempts)
    (hop : op 1 = .error e)
    (hsev : (handleError cfg (now 1) e
        (some (spreadCtx ctx 1 cfg.maxRetryAttempts))).severity
          = .critical) :
    (executeWithRetry cfg now ctx op).calls = 1
    ∧ (executeWithRetry cfg now ctx op).outcome
        = .raised (handleError cfg (now 1) e
            (some (spreadCtx ctx 1 cfg.maxRetryAttempts))) := by
  have hsr : shouldRetry cfg (handleError cfg (now 1) e
      (some (spreadCtx ctx 1 cfg.maxRetryAttempts))) 1 = false := by
    simp [shouldRetry, hsev]
  unfold executeWithRetry
  rw [retryGo_pos cfg now ctx op cfg.maxRetryAttempts 1 none (by omega), hop]
  simp [hsr]

/-- C2 witness: a first-attempt failure with an unclassified message is
classified CRITICAL and raised after exactly one invocation. -/
theorem critical_single_attempt_witness :
    (executeWithRetry cfgDemo nowT none opBoom).calls = 1
    ∧ (executeWithRetry cfgDemo nowT none opBoom).outcome
        = .raised (handleError cfgDemo (nowT 1)
            (.err "Error" "boom" none)
            (some (spreadCtx none 1 cfgDemo.maxRetryAttempts))) :=
  critical_single_attempt cfgDemo nowT none opBoom
    (.err "Error" "boom" none) (by decide) rfl (by decide)

/-- One retrying iteration: a failure whose classification passes
shouldRetry sleeps the computed backoff delay and continues with the next
attempt. -/
theorem retryGo_step_retry {T : Type} (cfg : ErrorHandlerConfig)
    (now : Nat → String) (ctx : Option Ctx) (op : Nat → Except Thrown T)
    (fuel attempt : Nat) (last : Option McpError) (e : Thrown)
    (hfuel : 0 < fuel)
    (hop : op attempt = .error e)
    (hsr : shouldRetry cfg (handleError cfg (now attempt) e
        (some (spreadCtx ctx attempt cfg.maxRetryAttempts))) attempt
          = true) :
    retryGo cfg now ctx op fuel attempt last =
      { calls := (retryGo cfg now ctx op (fuel - 1) (attempt + 1)
          (some (handleError cfg (now attempt) e
            (some (spreadCtx ctx attempt cfg.maxRetryAttempts))))).calls + 1
        delays := getRetryDelay cfg (handleError cfg (now attempt) e
            (some (spreadCtx ctx attempt cfg.maxRetryAttempts))) attempt
          :: (retryGo cfg now ctx op (fuel - 1) (attempt + 1)
            (some (handleError cfg (now attempt) e
              (some (spreadCtx ctx attempt cfg.maxRetryAttempts))))).delays
        outcome := (retryGo cfg now ctx op (fuel - 1) (attempt + 1)
          (some (handleError cfg (now attempt) e
            (some (spreadCtx ctx attempt cfg.maxRetryAttempts))))).outcome } := by
  have hlt : attempt < cfg.maxRetryAttempts := by
    have h2 := hsr
    simp [shouldRetry, Bool.and_eq_true, decide_eq_true_eq] at h2
    exact h2.1.2
  rw [retryGo_pos cfg now ctx op fuel attempt last hfuel, hop]
  simp [hsr, hlt]

/-- One stopping iteration: a failure whose classification fails
shouldRetry is raised at once. -/
theorem retryGo_step_stop {T : Type} (cfg : ErrorHandlerConfig)
    (now : Nat → String) (ctx : Option Ctx) (op : Nat → Except Thrown T)
    (fuel attempt : Nat) (last : Option McpError) (e : Thrown)
    (hfuel : 0 < fuel)
    (hop : op attempt = .error e)
    (hsr : shouldRetry cfg (handleError cfg (now attempt) e
        (some (spreadCtx ctx attempt cfg.maxRetryAttempts))) attempt
          = false) :
    retryGo cfg now ctx op fuel attempt last =
      ⟨1, [], .raised (handleError cfg (now attempt) e
        (some (spreadCtx ctx attempt cfg.maxRetryAttempts)))⟩ := by
  rw [retryGo_pos cfg now ctx op fuel attempt last hfuel, hop]
  simp [hsr]

/-- C3: with maxAttempts 3 and an operation failing on every invocation
with recoverable, non-critical classifications, executeWithRetry invokes
the operation exactly 3 times and raises the classification of the third
failure. -/
theorem three_attempts_last_error {T : Type} (cfg : ErrorHandlerConfig)
    (now : Nat → String) (ctx : Option Ctx) (op : Nat → Except Thrown T)
    (e1 e2 e3 : Thrown)
    (hmax : cfg.maxRetryAttempts = 3)
    (hop1 : op 1 = .error e1) (hop2 : op 2 = .error e2)
    (hop3 : op 3 = .error e3)
    (hrec1 : (handleError cfg (now 1) e1
        (some (spreadCtx ctx 1 cfg.maxRetryAttempts))).recoverable = true)
    (hsev1 : (handleError cfg (now 1) e1
        (some (spreadCtx ctx 1 cfg.maxRetryAttempts))).severity ≠ .critical)
    (hrec2 : (handleError cfg (now 2) e2
        (some (spreadCtx ctx 2 cfg.maxRetryAttempts))).recoverable = true)
    (hsev2 : (handleError cfg (now 2) e2
        (some (spreadCtx ctx 2 cfg.maxRetryAttempts))).severity ≠ .critical)
    (hrec3 : (handleError cfg (now 3) e3
        (some (spreadCtx ctx 3 cfg.maxRetryAttempts))).recoverable = true)
    (hsev3 : (handleError cfg (now 3) e3
        (some (spreadCtx ctx 3 cfg.maxRetryAttempts))).severity ≠ .critical) :
    (executeWithRetry cfg now ctx op).calls = 3
    ∧ (executeWithRetry cfg now ctx op).outcome
        = .raised (handleError cfg (now 3) e3
            (some (spreadCtx ctx 3 cfg.maxRetryAttempts))) := by
  have h1 : shouldRetry cfg (handleError cfg (now 1) e1
      (some (spreadCtx ctx 1 cfg.maxRetryAttempts))) 1 = true := by
    simp only [shouldRetry, Bool.and_eq_true, decide_eq_true_eq]
    exact ⟨⟨hrec1, by omega⟩, hsev1⟩
  have h2 : shouldRetry cfg (handleError cfg (now 2) e2
      (some (spreadCtx ctx 2 cfg.maxRetryAttempts))) 2 = true := by
    simp only [shouldRetry, Bool.and_eq_true, decide_eq_true_eq]
    exact ⟨⟨hrec2, by omega⟩, hsev2⟩
  have h3 : shouldRetry cfg (handleError cfg (now 3) e3
      (some (spreadCtx ctx 3 cfg.maxRetryAttempts))) 3 = false := by
    simp [shouldRetry, hmax]
  have c1 := retryGo_step_retry cfg now ctx op cfg.maxRetryAttempts 1 none
    e1 (by omega) hop1 h1
  have c2 := retryGo_step_retry cfg now ctx op (cfg.maxRetryAttempts - 1) 2
    (some (handleError cfg (now 1) e1
      (some (spreadCtx ctx 1 cfg.maxRetryAttempts))))
    e2 (by omega) hop2 h2
  have c3 := retryGo_step_stop cfg now ctx op
    (cfg.maxRetryAttempts - 1 - 1) 3
    (some (handleError cfg (now 2) e2
      (some (spreadCtx ctx 2 cfg.maxRetryAttempts))))
    e3 (by omega) hop3 h3
  unfold executeWithRetry
  rw [c1]
  simp only [Nat.reduceAdd]
  rw [c2]
  simp only [Nat.reduceAdd]
  rw [c3]
  simp

/-- C3 witness: a timeout-failing operation under the default
configuration is invoked 3 times and the third classification is
raised. -/
theorem three_attempts_witness :
    (executeWithRetry cfgDemo nowT none opTimeout).calls = 3
    ∧ (executeWithRetry cfgDemo nowT none opTimeout).outcome
        = .raised (handleError cfgDemo (nowT 3)
            (.err "Error" "request timeout" none)
            (some (spreadCtx none 3 cfgDemo.maxRetryAttempts))) :=
  three_attempts_last_error cfgDemo nowT none opTimeout
    (.err "Error" "request timeout" none)
    (.err "Error" "request timeout" none)
    (.err "Error" "request timeout" none)
    rfl rfl rfl rfl (by decide) (by decide) (by decide) (by decide)
    (by decide) (by decide)

/-- Every delay in a retry trace comes from a failure at the matching
attempt and equals getRetryDelay of that failure's classification. -/
theorem retryGo_delay_spec {T : Type} (cfg : ErrorHandlerConfig)
    (now : Nat → String) (ctx : Option Ctx) (op : Nat → Except Thrown T) :
    ∀ (fuel attempt : Nat) (last : Option McpError) (i : Nat),
      i < ((retryGo cfg now ctx op fuel attempt last).delays).length →
      ∃ e, op (attempt + i) = .error e
        ∧ ((retryGo cfg now ctx op fuel attempt last).delays).get? i
          = some (getRetryDelay cfg
              (handleError cfg (now (attempt + i)) e
                (some (spreadCtx ctx (attempt + i) cfg.maxRetryAttempts)))
              (attempt + i)) := by
  intro fuel
  induction fuel with
  | zero =>
    intro attempt last i h
    cases last <;> simp [retryGo] at h
  | succ m ih =>
    intro attempt last i h
    cases hop : op attempt with
    | ok v =>
      rw [retryGo_pos cfg now ctx op (m + 1) attempt last (by omega), hop]
        at h
      simp at h
    | error e =>
      cases hsr : shouldRetry cfg (handleError cfg (now attempt) e
          (some (spreadCtx ctx attempt cfg.maxRetryAttempts))) attempt with
      | false =>
        rw [retryGo_step_stop cfg now ctx op (m + 1) attempt last e
          (by omega) hop hsr] at h
        simp at h
      | true =>
        rw [retryGo_step_retry cfg now ctx op (m + 1) attempt last e
          (by omega) hop hsr] at h ⊢
        simp only [Nat.add_sub_cancel] at h ⊢
        cases i with
        | zero =>
          exact ⟨e, by simpa using hop, by simp⟩
        | succ j =>
          have hj : j < ((retryGo cfg now ctx op m (attempt + 1)
              (some (handleError cfg (now attempt) e
                (some (spreadCtx ctx attempt
                  cfg.maxRetryAttempts))))).delays).length := by
            simpa using h
          obtain ⟨e2, hop2, hget2⟩ := ih (attempt + 1)
            (some (handleError cfg (now attempt) e
              (some (spreadCtx ctx attempt cfg.maxRetryAttempts)))) j hj
          have hidx : attempt + 1 + j = attempt + (j + 1) := by omega
          rw [hidx] at hop2 hget2
          exact ⟨e2, hop2, by simpa using hget2⟩

/-- C4: for every retried failure, the delay slept between attempt k and
attempt k+1 equals base * 2^(k-1), where base is the classified error's
suggested retryAfter when present and otherwise the policy's default
retry delay. -/
theorem retry_delay_exponential {T : Type} (cfg : ErrorHandlerConfig)
    (now : Nat → String) (ctx : Option Ctx) (op : Nat → Except Thrown T)
    (k : Nat) (hk : 1 ≤ k)
    (h : k - 1 < ((executeWithRetry cfg now ctx op).delays).length) :
    ∃ e, op k = .error e
      ∧ ((executeWithRetry cfg now ctx op).delays).get? (k - 1)
        = some (((handleError cfg (now k) e
            (some (spreadCtx ctx k cfg.maxRetryAttempts))).retryAfter.getD
              cfg.defaultRetryDelay) * 2 ^ (k - 1)) := by
  obtain ⟨e, hop, hget⟩ := retryGo_delay_spec cfg now ctx op
    cfg.maxRetryAttempts 1 none (k - 1) h
  have hidx : 1 + (k - 1) = k := by omega
  rw [hidx] at hop hget
  exact ⟨e, hop, by unfold executeWithRetry; rw [hget]; simp [getRetryDelay]⟩

/-- C4 witness: under the default configuration a timeout-failing
operation sleeps 1000 * 2^0 between attempts 1 and 2 (its classification
suggests retryAfter 1000). -/
theorem retry_delay_exponential_witness :
    ∃ e, opTimeout 1 = .error e
      ∧ ((executeWithRetry cfgDemo nowT none opTimeout).delays).get? 0
        = some (((handleError cfgDemo (nowT 1) e
            (some (spreadCtx none 1 cfgDemo.maxRetryAttempts))).retryAfter.getD
              cfgDemo.defaultRetryDelay) * 2 ^ 0) :=
  retry_delay_exponential cfgDemo nowT none opTimeout 1 (by decide)
    (by decide)
